import Mathlib

/-!
Verification of the comment-scraping engine in `app/scraper.py`
(Web-Social-Comment-Scraper).

Each definition below is a shallow embedding of the corresponding Python
function in `app/scraper.py`; machine-level side effects (the Selenium
driver, HTTP transport, sleeps) are abstracted into explicit inputs
(observation streams, response sequences) while the control flow and the
data transformations are kept exactly as written in the source.
-/

namespace Scraper

/-! ## Data model

`RawComment` mirrors the per-comment record built inside
`TikTokScraper.scrape` / `FacebookScraper.scrape`
(`{'username': ..., 'content': ..., 'timestamp': ..., 'likes': ...}`). -/

structure RawComment where
  author : String
  content : String
  timestamp : String
  likes : Nat
deriving DecidableEq, Repr

/-- The dedup key used at append time in both browser scrapers:
`unique_key = (user_id, comment_text)` (scraper.py:1630) and
`unique_key = (user_id, final_content)` (scraper.py:2401). -/
def dedupKey (c : RawComment) : String × String := (c.author, c.content)

/-- One iteration of the append-time dedup in both `scrape` loops:
`if unique_key not in data_set: data_set.add(unique_key); comments.append(...)`
(scraper.py:1631-1638, 2403-2409).  The state is the accumulated output
list together with the membership set (modelled as a list of keys). -/
def scrapeStep (st : List RawComment × List (String × String)) (c : RawComment) :
    List RawComment × List (String × String) :=
  if dedupKey c ∈ st.2 then st else (st.1 ++ [c], dedupKey c :: st.2)

/-- The deduplicated comment list produced by feeding the stream of extracted
records through the append-time dedup, starting from
`comments = []` and `data_set = set()`. -/
def dedupComments (stream : List RawComment) : List RawComment :=
  (stream.foldl scrapeStep ([], [])).1

/-- Reference function written from the spec's words: keep each record whose
dedup key has not been seen among earlier records, i.e. the subsequence of
first occurrences, in input order. -/
def firstOccurrences : List RawComment → List (String × String) → List RawComment
  | [], _ => []
  | c :: cs, seen =>
    if dedupKey c ∈ seen then firstOccurrences cs seen
    else c :: firstOccurrences cs (dedupKey c :: seen)

/-- Spec-side top-level form of `firstOccurrences`. -/
def firstOccurrencesSpec (stream : List RawComment) : List RawComment :=
  firstOccurrences stream []

theorem foldl_scrapeStep_eq (s : List RawComment) :
    ∀ acc seen, (s.foldl scrapeStep (acc, seen)).1 = acc ++ firstOccurrences s seen := by
  induction s with
  | nil => intro acc seen; simp [firstOccurrences]
  | cons c cs ih =>
    intro acc seen
    by_cases h : dedupKey c ∈ seen
    · simp [scrapeStep, firstOccurrences, h, ih]
    · simp [scrapeStep, firstOccurrences, h, ih, List.append_assoc]

theorem firstOccurrences_key_notin_seen (s : List RawComment) :
    ∀ seen k, k ∈ (firstOccurrences s seen).map dedupKey → k ∉ seen := by
  induction s with
  | nil => intro seen k hk; simp [firstOccurrences] at hk
  | cons c cs ih =>
    intro seen k hk hks
    by_cases h : dedupKey c ∈ seen
    · rw [firstOccurrences, if_pos h] at hk
      exact ih seen k hk hks
    · rw [firstOccurrences, if_neg h] at hk
      simp only [List.map_cons, List.mem_cons] at hk
      rcases hk with rfl | hk
      · exact h hks
      · exact ih _ k hk (by simp [hks])

theorem firstOccurrences_nodup (s : List RawComment) :
    ∀ seen, ((firstOccurrences s seen).map dedupKey).Nodup := by
  induction s with
  | nil => intro seen; simp [firstOccurrences]
  | cons c cs ih =>
    intro seen
    by_cases h : dedupKey c ∈ seen
    · rw [firstOccurrences, if_pos h]; exact ih seen
    · rw [firstOccurrences, if_neg h]
      refine List.nodup_cons.mpr ⟨?_, ih _⟩
      intro hmem
      exact firstOccurrences_key_notin_seen cs _ _ hmem (by simp)

theorem firstOccurrences_sublist (s : List RawComment) :
    ∀ seen, (firstOccurrences s seen).Sublist s := by
  induction s with
  | nil => intro seen; simp [firstOccurrences]
  | cons c cs ih =>
    intro seen
    by_cases h : dedupKey c ∈ seen
    · rw [firstOccurrences, if_pos h]
      exact (ih seen).trans (List.sublist_cons_self c cs)
    · rw [firstOccurrences, if_neg h]
      exact (ih _).cons₂ c

theorem firstOccurrences_mem_keys (s : List RawComment) :
    ∀ seen k, k ∈ s.map dedupKey → k ∉ seen →
      k ∈ (firstOccurrences s seen).map dedupKey := by
  induction s with
  | nil => intro seen k hk; simp at hk
  | cons c cs ih =>
    intro seen k hk hks
    simp only [List.map_cons, List.mem_cons] at hk
    by_cases h : dedupKey c ∈ seen
    · rw [firstOccurrences, if_pos h]
      rcases hk with rfl | hk
      · exact absurd h hks
      · exact ih seen k hk hks
    · rw [firstOccurrences, if_neg h]
      rcases hk with rfl | hk
      · simp
      · by_cases hkc : k = dedupKey c
        · simp [hkc]
        · simp only [List.map_cons, List.mem_cons]
          exact Or.inr (ih _ k hk (by simp [hks, hkc]))

/-- **C1.** The append-time dedup of both platform scrapers
(`TikTokScraper.scrape`, scraper.py:1630-1639 and `FacebookScraper.scrape`,
scraper.py:2400-2410): for every stream of extracted records the returned
list has pairwise-distinct `(author, content)` dedup keys, equals the
subsequence of first occurrences of each key in input order (so each
unique pair appears exactly once, at the position of its first
occurrence), is a subsequence of the input stream, and covers every key
occurring in the stream. -/
theorem claim_C1 (stream : List RawComment) :
    ((dedupComments stream).map dedupKey).Nodup ∧
    dedupComments stream = firstOccurrencesSpec stream ∧
    (dedupComments stream).Sublist stream ∧
    (∀ k, k ∈ stream.map dedupKey → k ∈ (dedupComments stream).map dedupKey) := by
  have heq : dedupComments stream = firstOccurrencesSpec stream := by
    unfold dedupComments firstOccurrencesSpec
    simpa using foldl_scrapeStep_eq stream [] []
  refine ⟨?_, heq, ?_, ?_⟩
  · rw [heq]; exact firstOccurrences_nodup stream []
  · rw [heq]; exact firstOccurrences_sublist stream []
  · intro k hk
    rw [heq]
    exact firstOccurrences_mem_keys stream [] k hk (by simp)

/-! ## Compact-count parsing (`_parse_count`)

`TikTokScraper._parse_count` (scraper.py:1275-1296) and the identical
`FacebookScraper._parse_count` (scraper.py:1674-1695):

```
try:
    text = text.upper().strip()
    if 'K' in text:   return int(float(text.replace('K', '')) * 1000)
    elif 'M' in text: return int(float(text.replace('M', '')) * 1000000)
    else:
        num = re.sub(r'[^\x7b^\x7d\d]', '', text)  -- strip non-digits
        return int(num) if num else 0
except:
    return 0
```

Python's `float()` over a plain decimal literal is modelled with exact
rational arithmetic (`parseDecimal?`); `None` corresponds to `float`
raising, which the enclosing `except` turns into 0.  On the literals this
claim is about, IEEE-754 double rounding and the rational value truncate
to the same integer.  `int()` truncates toward zero (`pyInt`). -/

/-- Python `str.strip()` on a character list: drop leading and trailing
whitespace.  (Implemented directly on lists so that concrete instances
reduce inside the kernel.) -/
def stripChars (cs : List Char) : List Char :=
  ((cs.dropWhile Char.isWhitespace).reverse.dropWhile Char.isWhitespace).reverse

/-- Python `str.strip()`. -/
def pyStrip (s : String) : String := String.mk (stripChars s.toList)

/-- Python `str.upper()` (ASCII; the inputs of interest are ASCII). -/
def pyUpper (s : String) : String := String.mk (s.toList.map Char.toUpper)

/-- Python `str.lower()` (ASCII letters are lowered; other characters,
including already-lowercase Vietnamese letters, are unchanged). -/
def pyLower (s : String) : String := String.mk (s.toList.map Char.toLower)

/-- Numeric value of a list of decimal digit characters
(the accumulator form of Python's integer parsing). -/
def natOfDigits (cs : List Char) : Nat :=
  cs.foldl (fun a c => a * 10 + (c.toNat - 48)) 0

/-- The exact value of a decimal literal: `mantissa / 10 ^ scale`.
Python's `float()` rounds this value to the nearest IEEE-754 double; for
the inputs of this development the subsequent `int(· * 1000)` /
`int(· * 1000000)` agrees between the double and the exact value, so the
exact representation is used. -/
structure DecimalLit where
  mantissa : Int
  scale : Nat
deriving DecidableEq, Repr

/-- Python `float(s)` restricted to plain decimal literals:
optional sign, digits, optional decimal point with digits
(at least one digit overall); `none` models a raised `ValueError`. -/
def parseDecimal? (s : String) : Option DecimalLit :=
  let cs := stripChars s.toList
  let signed : Int × List Char :=
    match cs with
    | '-' :: rest => (-1, rest)
    | '+' :: rest => (1, rest)
    | _ => (1, cs)
  let intPart := signed.2.takeWhile (fun c => c ≠ '.')
  let rest := signed.2.dropWhile (fun c => c ≠ '.')
  let fracPart := rest.tail
  if intPart.all Char.isDigit ∧ fracPart.all Char.isDigit ∧
      (intPart ≠ [] ∨ fracPart ≠ []) then
    some { mantissa := signed.1 * natOfDigits (intPart ++ fracPart),
           scale := fracPart.length }
  else none

/-- Python `int()` applied to the exact value `m / 10 ^ s`:
truncation toward zero (`Int.tdiv` is the truncating division). -/
def pyIntOfScaled (m : Int) (s : Nat) : Int := m.tdiv ((10 : Int) ^ s)

/-- Python `s.replace(c, '')`: delete every occurrence of the character. -/
def pyRemoveChar (s : String) (c : Char) : String :=
  String.mk (s.toList.filter (fun x => x ≠ c))

/-- `re.sub(r'[^\d]', '', text)`: keep only the decimal digits. -/
def keepDigits (s : String) : List Char := s.toList.filter Char.isDigit

/-- `_parse_count` (scraper.py:1275-1296 / 1674-1695).  Total by
construction: every failing branch of the Python body is caught by the
surrounding `except` and yields 0. -/
def parse_count (text : String) : Int :=
  let t := pyStrip (pyUpper text)
  if t.toList.contains 'K' then
    match parseDecimal? (pyRemoveChar t 'K') with
    | some d => pyIntOfScaled (d.mantissa * 1000) d.scale
    | none => 0
  else if t.toList.contains 'M' then
    match parseDecimal? (pyRemoveChar t 'M') with
    | some d => pyIntOfScaled (d.mantissa * 1000000) d.scale
    | none => 0
  else
    let num := keepDigits t
    if num = [] then 0 else (natOfDigits num : Int)

/-- **C6.** The compact-count parser (`_parse_count`, scraper.py:1275-1296
and 1674-1695) maps `"1.2K"` to 1200, `"5M"` to 5000000, `"123"` to 123,
and the empty string or garbage input to 0.  The embedding is a total
function on strings (the Python body is wrapped in `try/except` returning
0), so no input raises. -/
theorem claim_C6 :
    parse_count "1.2K" = 1200 ∧
    parse_count "5M" = 5000000 ∧
    parse_count "123" = 123 ∧
    parse_count "" = 0 ∧
    parse_count "abc" = 0 ∧
    parse_count "?!#" = 0 := by
  refine ⟨?_, ?_, ?_, ?_, ?_, ?_⟩ <;> decide

/-! ## Captcha Sentinel (`BaseScraper._wait_for_captcha_if_present`)

scraper.py:572-651.  The captcha presence signal (successive results of
`_is_captcha_present`) is modelled as a function `present` of the elapsed
wait in seconds; the loop polls it at 0, 3, 6, ... seconds. -/

/-- Terminal outcome of `_wait_for_captcha_if_present`. -/
inductive CaptchaOutcome where
  /-- The initial `_is_captcha_present` check saw no captcha:
  the method returns `False` immediately. -/
  | noCaptcha
  /-- The non-headless poll loop saw the captcha disappear after
  `waited` seconds: the method returns `False` and scraping resumes. -/
  | cleared (waited : Nat)
  /-- `CaptchaDetectedException` is raised after `waited` seconds. -/
  | raised (waited : Nat)
deriving DecidableEq, Repr

/-- The non-headless poll loop (scraper.py:637-651):
`while waited < max_wait_seconds:` re-check, else `time.sleep(3)` and
`waited += 3`; falling out of the loop raises. -/
def waitLoop (present : Nat → Bool) (maxWait waited : Nat) : CaptchaOutcome :=
  if h : waited < maxWait then
    if present waited then waitLoop present maxWait (waited + 3)
    else CaptchaOutcome.cleared waited
  else CaptchaOutcome.raised waited
termination_by maxWait - waited
decreasing_by omega

/-- `_wait_for_captcha_if_present` (scraper.py:572-651): no captcha ⇒
return at once; headless ⇒ raise with zero wait; otherwise enter the
3-second poll loop with ceiling `maxWait` (default 120). -/
def waitForCaptchaIfPresent (headless : Bool) (present : Nat → Bool)
    (maxWait : Nat := 120) : CaptchaOutcome :=
  if ¬ present 0 then CaptchaOutcome.noCaptcha
  else if headless then CaptchaOutcome.raised 0
  else waitLoop present maxWait 0

theorem waitLoop_cleared (present : Nat → Bool) (maxWait : Nat) :
    ∀ j waited, waited + 3 * j < maxWait → present (waited + 3 * j) = false →
      ∃ w, w < maxWait ∧ waitLoop present maxWait waited = CaptchaOutcome.cleared w := by
  intro j
  induction j with
  | zero =>
    intro waited h1 h2
    simp only [Nat.mul_zero, Nat.add_zero] at h1 h2
    rw [waitLoop, dif_pos h1, h2]
    exact ⟨waited, h1, rfl⟩
  | succ j ih =>
    intro waited h1 h2
    have hlt : waited < maxWait := by omega
    rw [waitLoop, dif_pos hlt]
    cases hp : present waited with
    | false => exact ⟨waited, hlt, rfl⟩
    | true =>
      simp only []
      exact ih (waited + 3) (by omega) (by rw [← h2]; congr 1; omega)

theorem waitLoop_raised (present : Nat → Bool) (hp : ∀ t, present t = true) :
    ∀ n waited, 120 ≤ waited + 3 * n → 3 ∣ waited → waited ≤ 120 →
      waitLoop present 120 waited = CaptchaOutcome.raised 120 := by
  intro n
  induction n with
  | zero =>
    intro waited h1 h2 h3
    have : waited = 120 := by omega
    subst this
    rw [waitLoop, dif_neg (by omega)]
  | succ n ih =>
    intro waited h1 h2 h3
    by_cases hlt : waited < 120
    · rw [waitLoop, dif_pos hlt, hp waited]
      exact ih (waited + 3) (by omega) (by omega) (by omega)
    · have : waited = 120 := by omega
      subst this
      rw [waitLoop, dif_neg (by omega)]

/-- **C2.** `_wait_for_captcha_if_present` (scraper.py:572-651) as a
headless-dependent state machine, at the default 120-second ceiling:
(1) headless with a captcha present raises immediately with zero wait;
(2) non-headless with a captcha present that is absent at some 3-second
poll instant before the ceiling returns normally (cleared before the
ceiling), so scraping resumes;
(3) non-headless with a captcha that never clears raises after the
120-second ceiling elapses. -/
theorem claim_C2 (present : Nat → Bool) :
    (present 0 = true →
      waitForCaptchaIfPresent true present 120 = CaptchaOutcome.raised 0) ∧
    (present 0 = true → (∃ k, 3 * k < 120 ∧ present (3 * k) = false) →
      ∃ w, w < 120 ∧
        waitForCaptchaIfPresent false present 120 = CaptchaOutcome.cleared w) ∧
    ((∀ t, present t = true) →
      waitForCaptchaIfPresent false present 120 = CaptchaOutcome.raised 120) := by
  refine ⟨?_, ?_, ?_⟩
  · intro h0
    simp [waitForCaptchaIfPresent, h0]
  · intro h0 ⟨k, hk, hkp⟩
    have := waitLoop_cleared present 120 k 0 (by omega) (by simpa using hkp)
    simpa [waitForCaptchaIfPresent, h0] using this
  · intro hall
    have := waitLoop_raised present hall 40 0 (by omega) ⟨0, rfl⟩ (by omega)
    simpa [waitForCaptchaIfPresent, hall 0] using this

/-- Witness for `claim_C2`: a captcha that stays up forever (headless
raise with zero wait, and non-headless raise at the 120-second ceiling),
and one that is present at polls 0 and 3 but gone by the poll at 6
seconds (non-headless clears before the ceiling). -/
theorem claim_C2_witness :
    waitForCaptchaIfPresent true (fun _ => true) 120 = CaptchaOutcome.raised 0 ∧
    (∃ w, w < 120 ∧ waitForCaptchaIfPresent false (fun t => decide (t < 6)) 120 =
      CaptchaOutcome.cleared w) ∧
    waitForCaptchaIfPresent false (fun _ => true) 120 = CaptchaOutcome.raised 120 :=
  ⟨(claim_C2 (fun _ => true)).1 rfl,
   (claim_C2 (fun t => decide (t < 6))).2.1 rfl ⟨2, by decide, by decide⟩,
   (claim_C2 (fun _ => true)).2.2 (fun _ => rfl)⟩

/-! ## Scroll-Convergence Engine

The main scroll loops of `TikTokScraper.scrape` (scraper.py:1487-1514)
and `FacebookScraper.scrape` (scraper.py:2243-2278) share the same
counter logic:

```
no_more_scroll = 0
while True:
    has_more = burst()
    if not has_more:
        no_more_scroll += 1
        if no_more_scroll < 3: corrective backward-then-forward scroll
    else:
        no_more_scroll = 0
    if no_more_scroll >= 3: break
```

The burst outcomes (`_tiktok_scroll_burst` / `_fb_scroll_burst`: did the
scroll offset or the scroll extent grow?) are modelled as a stream
`burst : Nat → Bool` indexed by the iteration; the corrective maneuver
after a failed burst only acts on the browser, so its effect is part of
the next burst's outcome.  The loop itself has no fuel; here `fuel`
bounds the number of modelled iterations and `none` means the loop was
still running when the fuel ran out, so a `some` result is a proof of
termination. -/

/-- Update of the `no_more_scroll` counter by one burst outcome:
a successful burst resets it to 0, a failed one increments it. -/
def failStep (hasMore : Bool) (fails : Nat) : Nat :=
  if hasMore then 0 else fails + 1

/-- The scroll loop: iteration `i` runs one burst, updates the counter,
and exits (returning the exit iteration) once the counter reaches 3. -/
def scrollLoop (burst : Nat → Bool) : Nat → Nat → Nat → Option Nat
  | 0, _, _ => none
  | fuel + 1, i, fails =>
    let fails' := failStep (burst i) fails
    if fails' ≥ 3 then some i
    else scrollLoop burst fuel (i + 1) fails'

theorem scrollLoop_three_fails (burst : Nat → Bool) (i : Nat)
    (h0 : burst i = false) (h1 : burst (i + 1) = false)
    (h2 : burst (i + 2) = false) :
    ∀ fails fuel, ∃ j, j ≤ i + 2 ∧
      scrollLoop burst (fuel + 3) i fails = some j := by
  intro fails fuel
  rw [scrollLoop]
  simp only [failStep, h0, if_false, Bool.false_eq_true]
  by_cases hf : fails + 1 ≥ 3
  · exact ⟨i, by omega, by rw [if_pos hf]⟩
  · rw [if_neg hf, scrollLoop]
    simp only [failStep, h1, if_false, Bool.false_eq_true]
    by_cases hf2 : fails + 1 + 1 ≥ 3
    · exact ⟨i + 1, by omega, by rw [if_pos hf2]⟩
    · rw [if_neg hf2, scrollLoop]
      simp only [failStep, h2, if_false, Bool.false_eq_true]
      exact ⟨i + 2, by omega, by rw [if_pos (by omega)]⟩

theorem scrollLoop_terminates_of_stalled (burst : Nat → Bool) :
    ∀ steps i fails fuel, steps + 3 ≤ fuel →
      (∀ n, i + steps ≤ n → burst n = false) →
      ∃ j, scrollLoop burst fuel i fails = some j := by
  intro steps
  induction steps with
  | zero =>
    intro i fails fuel hfuel hstall
    obtain ⟨f, rfl⟩ : ∃ f, fuel = f + 3 := ⟨fuel - 3, by omega⟩
    obtain ⟨j, _, hj⟩ := scrollLoop_three_fails burst i
      (hstall i (by omega)) (hstall (i + 1) (by omega))
      (hstall (i + 2) (by omega)) fails f
    exact ⟨j, hj⟩
  | succ steps ih =>
    intro i fails fuel hfuel hstall
    obtain ⟨f, rfl⟩ : ∃ f, fuel = f + 1 := ⟨fuel - 1, by omega⟩
    rw [scrollLoop]
    by_cases hf : failStep (burst i) fails ≥ 3
    · exact ⟨i, by rw [if_pos hf]⟩
    · rw [if_neg hf]
      exact ih (i + 1) (failStep (burst i) fails) f (by omega)
        (fun n hn => hstall n (by omega))

/-- **C3.** The scroll-convergence loops of both platform scrapers
(scraper.py:1487-1514 and 2243-2278): (1) on any scroll source whose
bursts all fail from some iteration `N` on (the source eventually stops
growing), the loop exits within `N + 3` iterations — it proceeds to
extraction instead of looping forever; (2) three consecutive failed
bursts (after the corrective maneuvers of the first two failures)
exit the loop no later than two iterations after the first of them;
(3) a successful burst resets the consecutive-failure counter to 0 and a
failed one increments it. -/
theorem claim_C3 (burst : Nat → Bool) (N : Nat)
    (hstall : ∀ n, N ≤ n → burst n = false) :
    (∃ j, scrollLoop burst (N + 3) 0 0 = some j) ∧
    (∀ i fails fuel, burst i = false → burst (i + 1) = false →
      burst (i + 2) = false →
      ∃ j, j ≤ i + 2 ∧ scrollLoop burst (fuel + 3) i fails = some j) ∧
    (∀ fails, failStep true fails = 0) ∧
    (∀ fails, failStep false fails = fails + 1) := by
  refine ⟨?_, ?_, fun _ => rfl, fun _ => rfl⟩
  · exact scrollLoop_terminates_of_stalled burst N 0 0 (N + 3) (by omega)
      (fun n hn => hstall n (by omega))
  · intro i fails fuel h0 h1 h2
    exact scrollLoop_three_fails burst i h0 h1 h2 fails fuel

/-- Witness for `claim_C3`: a scroll source that never grows stalls from
iteration 0, so the loop exits within 3 iterations. -/
theorem claim_C3_witness :
    (∃ j, scrollLoop (fun _ => false) 3 0 0 = some j) ∧
    (∃ j, j ≤ 7 ∧ scrollLoop (fun _ => false) 3 5 0 = some j) :=
  ⟨(claim_C3 (fun _ => false) 0 (fun _ _ => rfl)).1,
   (claim_C3 (fun _ => false) 0 (fun _ _ => rfl)).2.1 5 0 0 rfl rfl rfl⟩

/-! ## Cookie Normalizer

`BaseScraper._apply_cookies` (scraper.py:690-786) and
`TikTokAPIScraper._setup_session` (scraper.py:880-945). -/

/-- A cookie object from the wire payload; each field is the result of
`cookie.get(key)` (`none` when the key is missing). -/
structure CookieObj where
  name : Option String := none
  value : Option String := none
  domain : Option String := none
  path : Option String := none
  secure : Option Bool := none
deriving DecidableEq, Repr

/-- The cookie record handed to `driver.add_cookie` by `_apply_cookies`
(scraper.py:750-757), with its literal defaults. -/
structure SeleniumCookie where
  name : String
  value : Option String
  domain : String
  path : String
  secure : Bool
deriving DecidableEq, Repr

/-- The cookie payload shapes the two normalizers dispatch on with
`isinstance`/key tests.  `envelope` is a dict carrying a `'cookies'` key
bound to a list (the `{url, cookies: [...]}` wire shape; the `url` entry
plays no role in either normalizer); `single` is a dict with `'name'`
and `'value'` keys and no `'cookies'` key (the legacy shape); `mapping`
is any other dict, read as `{cookie_name: cookie_value}`. -/
inductive CookiePayload where
  | pyNone
  | list (cs : List CookieObj)
  | envelope (cs : List CookieObj)
  | single (name value : String)
  | mapping (m : List (String × String))
deriving DecidableEq, Repr

/-- Python truthiness of a cookie payload (`if not cookie_data`):
`None`, the empty list and the empty dict are falsy; `envelope` and
`single` dicts always carry at least one key. -/
def CookiePayload.truthy : CookiePayload → Bool
  | .pyNone => false
  | .list cs => !cs.isEmpty
  | .envelope _ => true
  | .single _ _ => true
  | .mapping m => !m.isEmpty

/-- `cookie.get(...)` defaults of `_apply_cookies` (scraper.py:750-756):
`name` defaults to `''`, `domain` to `'.tiktok.com'`, `path` to `'/'`,
`secure` to `False`; `value` has no default. -/
def toSeleniumCookie (c : CookieObj) : SeleniumCookie :=
  { name := c.name.getD "", value := c.value, domain := c.domain.getD ".tiktok.com",
    path := c.path.getD "/", secure := c.secure.getD false }

/-- `_apply_cookies` (scraper.py:704-757): falsy input returns `False`
(`none`); a dict with a `'cookies'` key or a bare list yields the list;
ANY other dict — including the legacy single `{name, value}` object —
returns `False` (`none`, scraper.py:713-714).  On success the existing
jar is cleared and the cookies are applied in order; the result is that
ordered canonical cookie sequence. -/
def applyCookies : CookiePayload → Option (List SeleniumCookie)
  | .pyNone => none
  | .list cs => if cs.isEmpty then none else some (cs.map toSeleniumCookie)
  | .envelope cs => some (cs.map toSeleniumCookie)
  | .single _ _ => none
  | .mapping _ => none

/-- Python dict assignment `d[k] = v`: an existing key keeps its position
and gets the new value, a new key is appended (insertion order). -/
def insertCookie (m : List (String × String)) (k v : String) :
    List (String × String) :=
  if m.any (fun p => p.1 = k) then
    m.map (fun p => if p.1 = k then (k, v) else p)
  else m ++ [(k, v)]

/-- One list element of `_setup_session`'s conversion loops
(scraper.py:896-909): `name = cookie.get('name', '')`,
`value = cookie.get('value', '')`, `if name and value:
self.cookies[name] = value`. -/
def addIfNonEmpty (m : List (String × String)) (c : CookieObj) :
    List (String × String) :=
  let name := c.name.getD ""
  let value := c.value.getD ""
  if name ≠ "" ∧ value ≠ "" then insertCookie m name value else m

/-- `TikTokAPIScraper._setup_session` cookie conversion
(scraper.py:895-915), producing the session's name→value mapping in
insertion order: a bare list and the `{'cookies': [...]}` envelope are
folded entry-wise; the legacy single `{name, value}` dict is stored
directly; any other dict is taken as the mapping itself. -/
def setupSessionCookies : CookiePayload → List (String × String)
  | .pyNone => []
  | .list cs => cs.foldl addIfNonEmpty []
  | .envelope cs => cs.foldl addIfNonEmpty []
  | .single n v => insertCookie [] n v
  | .mapping m => m

/-- **C4 counterexample.** The browser-session normalizer
`_apply_cookies` is NOT total over the legacy single `{name, value}`
wire shape: a concrete legacy payload falls through the
`isinstance` dispatch (scraper.py:709-714) and returns `False` (no-op)
instead of reducing to a canonical cookie set. -/
theorem claim_C4_counterexample :
    applyCookies (CookiePayload.single "sessionid" "abc123") = none ∧
    setupSessionCookies (CookiePayload.single "sessionid" "abc123") =
      [("sessionid", "abc123")] := by
  exact ⟨rfl, rfl⟩

/-- **C4 (amended).** Cookie normalization in `_apply_cookies`
(scraper.py:704-757) is total over the bare-list (when non-empty; an
empty list is falsy and is a no-op) and `{url, cookies: [...]}` envelope
shapes, and both reduce equivalent cookie data to the same canonical
ordered cookie sequence; it returns the no-op signal (`False`) on the
legacy single `{name, value}` object.  The API-session normalizer
`_setup_session` (scraper.py:880-945) is total over all three shapes,
and given equivalent underlying cookie data all three reduce to the same
canonical name→value mapping. -/
theorem claim_C4_amended :
    (∀ cs, applyCookies (CookiePayload.envelope cs) =
      some (cs.map toSeleniumCookie)) ∧
    (∀ cs, cs ≠ [] → applyCookies (CookiePayload.list cs) =
      applyCookies (CookiePayload.envelope cs)) ∧
    (∀ n v, applyCookies (CookiePayload.single n v) = none) ∧
    (∀ cs, setupSessionCookies (CookiePayload.list cs) =
      setupSessionCookies (CookiePayload.envelope cs)) ∧
    (∀ n v, n ≠ "" → v ≠ "" →
      setupSessionCookies (CookiePayload.single n v) =
        setupSessionCookies (CookiePayload.list [{ name := some n, value := some v }])) := by
  refine ⟨fun cs => rfl, ?_, fun n v => rfl, fun cs => rfl, ?_⟩
  · intro cs hcs
    simp [applyCookies, List.isEmpty_iff, hcs]
  · intro n v hn hv
    simp [setupSessionCookies, addIfNonEmpty, hn, hv]

/-- Witness for `claim_C4_amended` at a concrete cookie list and a
concrete legacy object. -/
theorem claim_C4_witness :
    applyCookies (CookiePayload.list [{ name := some "msToken", value := some "t" }]) =
      applyCookies (CookiePayload.envelope [{ name := some "msToken", value := some "t" }]) ∧
    setupSessionCookies (CookiePayload.single "msToken" "t") =
      setupSessionCookies (CookiePayload.list [{ name := some "msToken", value := some "t" }]) :=
  ⟨(claim_C4_amended.2.1 [{ name := some "msToken", value := some "t" }] (by decide)),
   (claim_C4_amended.2.2.2.2 "msToken" "t" (by decide) (by decide))⟩

/-! ## Direct API Client (`TikTokAPIScraper.scrape` pagination)

scraper.py:1097-1169.  `get_comments` (one HTTP request per call) is
modelled as a response sequence `api : Nat → Option ApiResponse` indexed
by the request ordinal; `none` models the `None` returns for transport
errors, empty bodies and HTML (captcha) bodies. -/

/-- Substring containment (Python's `in` on strings). -/
def subOccurs (needle hay : List Char) : Bool :=
  (List.range (hay.length + 1)).any (fun i => needle.isPrefixOf (hay.drop i))

/-- The `user` dict of an API comment (`comment.get('user', {})`). -/
structure ApiUser where
  unique_id : Option String := none
  nickname : Option String := none
deriving DecidableEq, Repr

/-- One entry of the API response's `comments` array, with the fields
read by the parse loop (scraper.py:1139-1153); `none` is a missing key. -/
structure ApiComment where
  user : ApiUser := {}
  text : Option String := none
  digg_count : Option Nat := none
  reply_comment_total : Option Nat := none
  create_time : Option Nat := none
  cid : Option String := none
deriving DecidableEq, Repr

/-- The record appended to `all_comments` for one API comment. -/
structure ParsedComment where
  username : String
  text : String
  likes : Nat
  reply_count : Nat
  create_time : Nat
  cid : String
deriving DecidableEq, Repr

/-- The comment parse of scraper.py:1139-1150 (`dict.get` defaults). -/
def parseComment (c : ApiComment) : ParsedComment :=
  { username := "@" ++ c.user.unique_id.getD (c.user.nickname.getD "unknown"),
    text := c.text.getD "",
    likes := c.digg_count.getD 0,
    reply_count := c.reply_comment_total.getD 0,
    create_time := c.create_time.getD 0,
    cid := c.cid.getD "" }

/-- A decoded JSON response of the comment API, restricted to the fields
the pagination loop reads. -/
structure ApiResponse where
  status_code : Option Int := some 0
  status_msg : String := ""
  comments : List ApiComment := []
  has_more : Nat := 0
  cursor : Option Nat := none
deriving DecidableEq, Repr

/-- `data.get('status_code') != 0` (a missing status code is not 0). -/
def statusNonZero : Option Int → Bool
  | none => true
  | some k => decide (k ≠ 0)

/-- `status_msg and ('captcha' in status_msg.lower() or 'verify' in
status_msg.lower())` (scraper.py:1121). -/
def captchaSignal (msg : String) : Bool :=
  if msg = "" then false
  else subOccurs "captcha".toList (pyLower msg).toList ||
       subOccurs "verify".toList (pyLower msg).toList

/-- Terminal outcome of the pagination loop, with the number of API
requests that were issued. -/
inductive ApiScrapeResult where
  | ok (comments : List ParsedComment) (requests : Nat)
  | captchaRaised (requests : Nat)
deriving DecidableEq, Repr

/-- The pagination loop of `TikTokAPIScraper.scrape`
(scraper.py:1097-1166): while fewer than `maxComments` comments are
collected, issue one request; `None` data breaks; a non-zero platform
status either raises (captcha/verify in the message) or breaks; an empty
`comments` array breaks; otherwise the page is parsed and appended, a
falsy `has_more` breaks, and the cursor for the next call is
`data.get('cursor', cursor + 50)` — taken from the response when
present, else advanced by the requested page size of 50. -/
def apiScrapeLoop (api : Nat → Option ApiResponse) (maxComments : Nat)
    (acc : List ParsedComment) (cursor req : Nat) : ApiScrapeResult :=
  if _hlen : acc.length < maxComments then
    match api req with
    | none => ApiScrapeResult.ok acc (req + 1)
    | some data =>
      if statusNonZero data.status_code then
        if captchaSignal data.status_msg then ApiScrapeResult.captchaRaised (req + 1)
        else ApiScrapeResult.ok acc (req + 1)
      else if hc : data.comments = [] then ApiScrapeResult.ok acc (req + 1)
      else
        let acc' := acc ++ data.comments.map parseComment
        if data.has_more = 0 then ApiScrapeResult.ok acc' (req + 1)
        else apiScrapeLoop api maxComments acc' (data.cursor.getD (cursor + 50)) (req + 1)
  else ApiScrapeResult.ok acc req
termination_by maxComments - acc.length
decreasing_by
  simp only [acc', List.length_append, List.length_map]
  have := List.length_pos.mpr hc
  omega

/-- The fixed 3-page mocked response sequence of the claim: page 1 and
page 2 each carry 50 comments, a cursor and `has_more`; page 3 carries 0
comments and the no-more flag.  Later pages are full pages again, so any
fourth request would be visible in the result. -/
def mockApi : Nat → Option ApiResponse
  | 0 => some { comments := List.replicate 50 {}, has_more := 1, cursor := some 50 }
  | 1 => some { comments := List.replicate 50 {}, has_more := 1, cursor := some 100 }
  | 2 => some { comments := [], has_more := 0 }
  | _ => some { comments := List.replicate 50 {}, has_more := 1, cursor := some 200 }

theorem apiScrapeLoop_stop_empty (api : Nat → Option ApiResponse)
    (maxComments : Nat) (acc : List ParsedComment) (cursor req : Nat)
    (data : ApiResponse) (hlen : acc.length < maxComments)
    (hapi : api req = some data) (hstatus : data.status_code = some 0)
    (hempty : data.comments = []) :
    apiScrapeLoop api maxComments acc cursor req =
      ApiScrapeResult.ok acc (req + 1) := by
  rw [apiScrapeLoop, dif_pos hlen, hapi]
  simp [hstatus, statusNonZero, hempty]

theorem apiScrapeLoop_step_full (api : Nat → Option ApiResponse)
    (maxComments : Nat) (acc : List ParsedComment) (cursor req : Nat)
    (data : ApiResponse) (hlen : acc.length < maxComments)
    (hapi : api req = some data) (hstatus : data.status_code = some 0)
    (hne : data.comments ≠ []) (hmore : data.has_more ≠ 0) :
    apiScrapeLoop api maxComments acc cursor req =
      apiScrapeLoop api maxComments (acc ++ data.comments.map parseComment)
        (data.cursor.getD (cursor + 50)) (req + 1) := by
  rw [apiScrapeLoop, dif_pos hlen, hapi]
  simp [hstatus, statusNonZero, hne, hmore]

/-- **C5.** `TikTokAPIScraper.scrape` pagination (scraper.py:1097-1169):
(1) on the fixed 3-page response sequence it returns exactly 100
comments after exactly 3 requests — no fourth request is issued;
(2) a page with an empty `comments` array terminates pagination after
that request; (3) on a continuing page the cursor for the next request
is taken from the response when present, else advanced by the page size
of 50 (`data.get('cursor', cursor + 50)`). -/
theorem claim_C5 :
    (∃ out, apiScrapeLoop mockApi 500 [] 0 0 = ApiScrapeResult.ok out 3 ∧
      out.length = 100) ∧
    (∀ api maxComments (acc : List ParsedComment) cursor req data,
      acc.length < maxComments → api req = some data →
      data.status_code = some 0 → data.comments = [] →
      apiScrapeLoop api maxComments acc cursor req =
        ApiScrapeResult.ok acc (req + 1)) ∧
    (∀ api maxComments (acc : List ParsedComment) cursor req data,
      acc.length < maxComments → api req = some data →
      data.status_code = some 0 → data.comments ≠ [] → data.has_more ≠ 0 →
      apiScrapeLoop api maxComments acc cursor req =
        apiScrapeLoop api maxComments (acc ++ data.comments.map parseComment)
          (data.cursor.getD (cursor + 50)) (req + 1)) := by
  refine ⟨?_, apiScrapeLoop_stop_empty, apiScrapeLoop_step_full⟩
  refine ⟨List.replicate 100 (parseComment {}), ?_, by simp⟩
  have h1 : apiScrapeLoop mockApi 500 [] 0 0 =
      apiScrapeLoop mockApi 500 (List.replicate 50 (parseComment {})) 50 1 := by
    rw [apiScrapeLoop_step_full mockApi 500 [] 0 0 _ (by simp) rfl rfl
        (by simp) (by simp)]
    simp [List.map_replicate]
  have h2 : apiScrapeLoop mockApi 500 (List.replicate 50 (parseComment {})) 50 1 =
      apiScrapeLoop mockApi 500 (List.replicate 100 (parseComment {})) 100 2 := by
    rw [apiScrapeLoop_step_full mockApi 500 _ 50 1 _ (by simp) rfl rfl
        (by simp) (by simp)]
    simp [List.map_replicate, ← List.replicate_add]
  have h3 : apiScrapeLoop mockApi 500 (List.replicate 100 (parseComment {})) 100 2 =
      ApiScrapeResult.ok (List.replicate 100 (parseComment {})) 3 :=
    apiScrapeLoop_stop_empty mockApi 500 _ 100 2 _ (by simp) rfl rfl rfl
  rw [h1, h2, h3]

/-- Witness for `claim_C5`: the empty-page stop rule and the
cursor-fallback step rule at concrete inputs. -/
theorem claim_C5_witness :
    apiScrapeLoop (fun _ => some {}) 500 [] 0 0 = ApiScrapeResult.ok [] 1 ∧
    apiScrapeLoop (fun _ => some { comments := [{}], has_more := 1 }) 1 [] 0 0 =
      apiScrapeLoop (fun _ => some { comments := [{}], has_more := 1 }) 1
        [parseComment {}] 50 1 :=
  ⟨claim_C5.2.1 (fun _ => some {}) 500 [] 0 0 {} (by decide) rfl rfl rfl,
   by
    have := claim_C5.2.2 (fun _ => some { comments := [{}], has_more := 1 })
      1 [] 0 0 { comments := [{}], has_more := 1 } (by decide) rfl rfl
      (by decide) (by decide)
    simpa using this⟩

/-! ## Timestamp classifier (`TikTokScraper._is_timestamp_text`)

scraper.py:1204-1273.  The regex patterns of the source are compiled by
hand into character-list matchers; `pyLower` lowers ASCII letters only
(the source's `.lower()` also lowers non-ASCII capitals, but every input
considered here is already lowercase outside ASCII). -/

/-- Splits a character list at every occurrence of `sep`
(Python `str.split(sep)` shape: `n` separators give `n+1` parts). -/
def splitOnChar : List Char → Char → List (List Char)
  | [], _ => [[]]
  | c :: cs, sep =>
    let rest := splitOnChar cs sep
    if c = sep then [] :: rest
    else
      match rest with
      | [] => [[c]]
      | r :: rs => (c :: r) :: rs

/-- `\d{lo,hi}` on a full component: all digits, length between
`lo` and `hi`. -/
def digitsLen (cs : List Char) (lo hi : Nat) : Bool :=
  cs.all Char.isDigit && decide (lo ≤ cs.length) && decide (cs.length ≤ hi)

/-- `^\d{1,2}-\d{1,2}$` (scraper.py:1222). -/
def mdDashMatch (cs : List Char) : Bool :=
  match splitOnChar cs '-' with
  | [a, b] => digitsLen a 1 2 && digitsLen b 1 2
  | _ => false

/-- The TikTok month-day check (scraper.py:1222-1228): the `M-DD` shape
with `1 ≤ month ≤ 12` and `1 ≤ day ≤ 31`; an out-of-range match falls
through to the later patterns rather than classifying. -/
def mdDashValid (cs : List Char) : Bool :=
  mdDashMatch cs &&
    (match splitOnChar cs '-' with
     | [a, b] =>
       let month := natOfDigits a
       let day := natOfDigits b
       decide (1 ≤ month) && decide (month ≤ 12) &&
         decide (1 ≤ day) && decide (day ≤ 31)
     | _ => false)

/-- The anchored date regexes of `date_patterns` (scraper.py:1231-1239):
`YYYY-M-D`, `D-M-YYYY`, `D/M/YYYY`, `YYYY/M/D`, `D-M-YY`, `D/M/YY`
and `M/D`. -/
def datePatternMatch (cs : List Char) : Bool :=
  (match splitOnChar cs '-' with
   | [a, b, c] =>
     digitsLen a 4 4 && digitsLen b 1 2 && digitsLen c 1 2 ||
     digitsLen a 1 2 && digitsLen b 1 2 && digitsLen c 4 4 ||
     digitsLen a 1 2 && digitsLen b 1 2 && digitsLen c 2 2
   | _ => false) ||
  (match splitOnChar cs '/' with
   | [a, b, c] =>
     digitsLen a 1 2 && digitsLen b 1 2 && digitsLen c 4 4 ||
     digitsLen a 4 4 && digitsLen b 1 2 && digitsLen c 1 2 ||
     digitsLen a 1 2 && digitsLen b 1 2 && digitsLen c 2 2
   | [a, b] => digitsLen a 1 2 && digitsLen b 1 2
   | _ => false)

/-- The `time_patterns` substring denylist (scraper.py:1246-1259),
matched with Python's `in` against the lowered, stripped text. -/
def timeKeywords : List String :=
  ["d ago", "h ago", "m ago", "s ago", "w ago",
   "day", "hour", "minute", "second", "week", "month", "year",
   "just now", "yesterday",
   "1d", "2d", "3d", "4d", "5d", "6d", "7d",
   "1h", "2h", "3h", "4h", "5h", "6h", "7h", "8h", "9h", "10h", "11h", "12h",
   "1m", "2m", "3m", "5m", "10m", "15m", "20m", "30m", "45m",
   "1w", "2w", "3w", "4w",
   "giờ", "phút", "giây", "ngày", "tuần", "tháng", "năm",
   "vừa xong", "hôm qua", "hôm nay"]

/-- `^\d{1,3}[dhmswy]$` (scraper.py:1266). -/
def shortRelMatch (cs : List Char) : Bool :=
  match cs.getLast? with
  | some u => "dhmswy".toList.contains u && digitsLen cs.dropLast 1 3
  | none => false

/-- The alternatives of the prefix regex
`^\d+\s*(d|h|m|s|w|days?|hours?|minutes?|seconds?|weeks?|months?|years?)`
(scraper.py:1270); the regex matches iff, after the digits and optional
whitespace, one of these alternatives is a prefix of the remainder. -/
def relAlternatives : List String :=
  ["d", "h", "m", "s", "w", "days", "day", "hours", "hour",
   "minutes", "minute", "seconds", "second", "weeks", "week",
   "months", "month", "years", "year"]

/-- `re.match(r'^\d+\s*(d|h|m|s|w|days?|...|years?)', text_lower)`. -/
def prefixRelMatch (cs : List Char) : Bool :=
  let digits := cs.takeWhile Char.isDigit
  let rest := (cs.dropWhile Char.isDigit).dropWhile Char.isWhitespace
  !digits.isEmpty && relAlternatives.any (fun a => a.toList.isPrefixOf rest)

/-- `TikTokScraper._is_timestamp_text` (scraper.py:1204-1273):
empty or over-30-character text is never a timestamp; otherwise the
stripped text is checked against the validated month-day shape, the
anchored date shapes, the relative-time keyword substrings, the compact
`\d{1,3}[dhmswy]` shape, and the digit-prefixed relative shape. -/
def is_timestamp_text (text : String) : Bool :=
  if text = "" ∨ text.length > 30 then false
  else
    let ts := stripChars text.toList
    let tl := (pyLower (String.mk ts)).toList
    if mdDashValid ts then true
    else if datePatternMatch ts then true
    else if timeKeywords.any (fun p => subOccurs p.toList tl) then true
    else if shortRelMatch tl then true
    else if prefixRelMatch tl then true
    else false

/-- **C7 counterexample.** The claim that every string of ordinary
sentence comment content classifies as non-timestamp fails: the ordinary
15-character sentence `"have a nice day"` contains the denylist
substring `"day"` (scraper.py:1249, checked with `in` on the lowered
text), so `_is_timestamp_text` classifies it as a timestamp and it would
be filtered from comment content. -/
theorem claim_C7_counterexample :
    is_timestamp_text "have a nice day" = true := by decide

/-- **C7 (amended).** `_is_timestamp_text` (scraper.py:1204-1273)
returns true on `"5h"`, `"2 ngày trước"`, `"10/28"` and `"2025-10-28"`
(they are filtered as timestamps), and returns false for every string
longer than 30 characters and for ordinary sentence content that avoids
the relative-time keyword substrings (e.g. `"This looks super cool"`) —
but a short ordinary sentence containing such a keyword substring (e.g.
`"day"`) is also classified as a timestamp. -/
theorem claim_C7_amended :
    is_timestamp_text "5h" = true ∧
    is_timestamp_text "2 ngày trước" = true ∧
    is_timestamp_text "10/28" = true ∧
    is_timestamp_text "2025-10-28" = true ∧
    (∀ s : String, s.length > 30 → is_timestamp_text s = false) ∧
    is_timestamp_text "This looks super cool" = false := by
  refine ⟨by decide, by decide, by decide, by decide, ?_, by decide⟩
  intro s hs
  rw [is_timestamp_text, if_pos (Or.inr hs)]

/-- Witness for `claim_C7_amended`: a concrete 31-character string is
not classified as a timestamp. -/
theorem claim_C7_witness :
    is_timestamp_text "aaaaaaaaaaaaaaaaaaaaaaaaaaaaaaa" = false :=
  claim_C7_amended.2.2.2.2.1 "aaaaaaaaaaaaaaaaaaaaaaaaaaaaaaa" (by decide)

/-! ## Facebook comment-content assembly

`FacebookScraper._is_junk_line` (scraper.py:1697-1722) and the content
logic of `FacebookScraper.scrape` (scraper.py:2327-2352). -/

/-- The `junk_phrases` denylist (scraper.py:1704-1710), compared for
equality against the stripped, lowered line. -/
def junkPhrases : List String :=
  ["thích", "trả lời", "phản hồi", "chia sẻ", "xem thêm",
   "viết bình luận", "bình luận", "like", "reply", "share",
   "phù hợp nhất", "tất cả bình luận", "xem bản dịch",
   "theo dõi", "follow", "đang theo dõi", "đã chỉnh sửa",
   "tác giả", "top fan"]

/-- The alternatives of `^\d+\s?(giờ|phút|giây|ngày|tuần|năm|h|m|d|y|w)$`
(scraper.py:1716). -/
def junkTimeUnits : List String :=
  ["giờ", "phút", "giây", "ngày", "tuần", "năm", "h", "m", "d", "y", "w"]

/-- The anchored time regex of `_is_junk_line`: one or more digits, at
most one whitespace character, then exactly one unit to the end. -/
def junkTimeMatch (cs : List Char) : Bool :=
  let digits := cs.takeWhile Char.isDigit
  let rest := cs.dropWhile Char.isDigit
  let rest' :=
    match rest with
    | c :: tl => if c.isWhitespace then tl else rest
    | [] => []
  !digits.isEmpty && junkTimeUnits.any (fun u => u.toList = rest')

/-- `FacebookScraper._is_junk_line` (scraper.py:1697-1722): the stripped
lowered line is junk when it equals a denylist phrase, matches the
relative-time shape, equals `"vừa xong"` or `"just now"`, or is all
digits (`^\d+$`). -/
def is_junk_line (text : String) : Bool :=
  let t := (pyLower (String.mk (stripChars text.toList)))
  if junkPhrases.contains t then true
  else if junkTimeMatch t.toList then true
  else if t = "vừa xong" ∨ t = "just now" then true
  else if !t.toList.isEmpty && t.toList.all Char.isDigit then true
  else false

/-- The media-placeholder sentinel (scraper.py:2352). -/
def mediaPlaceholder : String := "[Ảnh/Sticker/GIF]"

/-- Python `raw_text.split('\n')` on a character list. -/
def fbLines (raw_text : String) : List String :=
  (splitOnChar raw_text.toList '\n').map String.mk

/-- `clean_lines = [line for line in all_lines if not
self._is_junk_line(line)]` (scraper.py:2334). -/
def fbCleanLines (raw_text : String) : List String :=
  (fbLines raw_text).filter (fun l => !is_junk_line l)

/-- The author-drop logic of scraper.py:2339-2345: with ≥ 2 surviving
lines the first (the author name) is unconditionally dropped and the
rest joined with newlines; with exactly one (or zero) surviving line the
content is empty (caption-less / media-only). -/
def fbCommentContent (clean_lines : List String) : String :=
  if clean_lines.length ≥ 2 then
    String.intercalate "\n" clean_lines.tail
  else ""

/-- `final_content = (comment_content + " " + emoji_text).strip()`, with
the empty result replaced by the media placeholder
(scraper.py:2348-2352). -/
def fbFinalContent (raw_text emoji_text : String) : String :=
  let content := fbCommentContent (fbCleanLines raw_text)
  let fc := String.mk (stripChars (content ++ " " ++ emoji_text).toList)
  if fc = "" then mediaPlaceholder else fc

/-- **C8.** The Facebook per-node content assembly
(scraper.py:2327-2352): after junk-line filtering, (1) with ≥ 2
surviving lines the first surviving line is unconditionally dropped and
the content is the join of the remaining lines; (2) with exactly one
surviving non-junk line the content is treated as caption-less (empty
before emoji/sentinel handling) rather than taken as content; (3) the
emitted content field is never the empty string — an empty assembly is
replaced by the sentinel `"[Ảnh/Sticker/GIF]"`. -/
theorem claim_C8 (raw_text emoji_text : String) :
    ((fbCleanLines raw_text).length ≥ 2 →
      fbCommentContent (fbCleanLines raw_text) =
        String.intercalate "\n" (fbCleanLines raw_text).tail) ∧
    ((fbCleanLines raw_text).length = 1 →
      fbCommentContent (fbCleanLines raw_text) = "") ∧
    fbFinalContent raw_text emoji_text ≠ "" := by
  refine ⟨?_, ?_, ?_⟩
  · intro h
    rw [fbCommentContent, if_pos h]
  · intro h
    rw [fbCommentContent, if_neg (by omega)]
  · rw [fbFinalContent]
    by_cases h :
        String.mk (stripChars ((fbCommentContent (fbCleanLines raw_text)) ++
          " " ++ emoji_text).toList) = ""
    · rw [if_pos h]
      decide
    · rw [if_neg h]
      exact h

/-- Witness for `claim_C8` on a concrete node text: the junk line
`"Thích"` is filtered, the author line `"Nguyen Van A"` is dropped,
the remaining line is the content, and a fully junk node falls back to
the sentinel. -/
theorem claim_C8_witness :
    (fbCleanLines "Nguyen Van A\nhello world\nThích").length ≥ 2 ∧
    fbCommentContent (fbCleanLines "Nguyen Van A\nhello world\nThích") =
      "hello world" ∧
    fbFinalContent "Thích\nTrả lời" "" = mediaPlaceholder := by
  have h := claim_C8 "Nguyen Van A\nhello world\nThích" ""
  have hlen : (fbCleanLines "Nguyen Van A\nhello world\nThích").length ≥ 2 := by
    decide
  refine ⟨hlen, ?_, by decide⟩
  rw [h.1 hlen]
  decide

/-! ## TikTok captcha false-positive handling

scraper.py:1465-1484, inside `TikTokScraper.scrape`: after page load a
detected captcha is re-checked when cookies are supplied.  The three
successive `_is_captcha_present` observations are `obs0` (initial),
`obs1` (after the 3-second tolerance sleep) and `obs2` (after the page
refresh); `present` is the presence signal seen by the final
`_wait_for_captcha_if_present` call, should it be reached. -/

/-- Outcome of the post-load captcha gate. -/
inductive CaptchaGateResult where
  /-- Scraping continues; no captcha failure policy was invoked. -/
  | continueScrape
  /-- `_wait_for_captcha_if_present` (the failure policy) was invoked,
  with the given outcome. -/
  | policy (r : CaptchaOutcome)
deriving DecidableEq, Repr

/-- The gate of scraper.py:1465-1484: without cookies a detected captcha
goes straight to the failure policy; with cookies it is re-checked after
about 3 seconds, then re-checked after a refresh, and only a challenge
that persists through both re-checks reaches the failure policy. -/
def tiktokCaptchaGate (hasCookies : Bool) (obs0 obs1 obs2 : Bool)
    (headless : Bool) (present : Nat → Bool) : CaptchaGateResult :=
  if obs0 then
    if hasCookies then
      if obs1 then
        if obs2 then
          CaptchaGateResult.policy (waitForCaptchaIfPresent headless present 120)
        else CaptchaGateResult.continueScrape
      else CaptchaGateResult.continueScrape
    else CaptchaGateResult.policy (waitForCaptchaIfPresent headless present 120)
  else CaptchaGateResult.continueScrape

/-- **C9.** The TikTok cookie-supplied captcha gate
(scraper.py:1465-1484): with cookies supplied and a captcha detected
after page load, (1) if the challenge is gone at the 3-second re-check
scraping continues with no failure raised, for any headless mode; (2) if
it is gone at the post-refresh re-check scraping likewise continues with
no failure; (3) only when the challenge persists through both re-checks
is the captcha failure policy (`_wait_for_captcha_if_present`) invoked. -/
theorem claim_C9 :
    (∀ (headless : Bool) (present : Nat → Bool) (obs2 : Bool),
      tiktokCaptchaGate true true false obs2 headless present =
        CaptchaGateResult.continueScrape) ∧
    (∀ (headless : Bool) (present : Nat → Bool),
      tiktokCaptchaGate true true true false headless present =
        CaptchaGateResult.continueScrape) ∧
    (∀ (headless : Bool) (present : Nat → Bool),
      tiktokCaptchaGate true true true true headless present =
        CaptchaGateResult.policy (waitForCaptchaIfPresent headless present 120)) :=
  ⟨fun _ _ _ => rfl, fun _ _ => rfl, fun _ _ => rfl⟩

/-! ## Resource release on scrape exit

`TikTokScraper.scrape` (scraper.py:1656-1663) and
`FacebookScraper.scrape` (scraper.py:2429-2439) share the same
`try/except/finally` epilogue; `TikTokAPIScraper.scrape`
(scraper.py:1067-1169) has no such epilogue and never calls
`TikTokAPIScraper.close` (scraper.py:1171-1173). -/

/-- The exception a scrape body can terminate with. -/
inductive PyExc where
  | botDetected
  | urlNotFound
  | captchaDetected
  | webDriver (msg : String)
  | other (msg : String)
deriving DecidableEq, Repr

/-- The caller-visible typed failure after the handler chain. -/
inductive ScrapeError where
  | botDetected
  | urlNotFound
  | captchaDetected
  | scraper (msg : String)
deriving DecidableEq, Repr

/-- Browser ownership state: `driver = some ()` is a running browser
process, `none` a released one. -/
structure BrowserState where
  driver : Option Unit
deriving DecidableEq, Repr

/-- `BaseScraper.close` (scraper.py:847-854): quit the driver if any and
set it to `None`. -/
def closeDriver (_st : BrowserState) : BrowserState := { driver := none }

/-- The exit epilogue shared by `TikTokScraper.scrape`
(scraper.py:1656-1663) and `FacebookScraper.scrape`
(scraper.py:2429-2439): the three typed exceptions re-raise unchanged,
`WebDriverException` and any other exception are wrapped in
`ScraperException`, a normal body returns its comment list — and the
`finally` block runs `self.close()` on every one of these paths. -/
def browserScrapeExit (body : Except PyExc (List RawComment))
    (st : BrowserState) : BrowserState × Except ScrapeError (List RawComment) :=
  let result : Except ScrapeError (List RawComment) :=
    match body with
    | .ok cs => .ok cs
    | .error .botDetected => .error ScrapeError.botDetected
    | .error .urlNotFound => .error ScrapeError.urlNotFound
    | .error .captchaDetected => .error ScrapeError.captchaDetected
    | .error (.webDriver m) => .error (ScrapeError.scraper ("Lỗi WebDriver: " ++ m))
    | .error (.other m) => .error (ScrapeError.scraper ("Lỗi không xác định: " ++ m))
  (closeDriver st, result)

/-- HTTP-session ownership state of `TikTokAPIScraper`
(`requests.Session()` is opened in `__init__`, scraper.py:876). -/
structure ApiSessionState where
  sessionOpen : Bool
deriving DecidableEq, Repr

/-- The exit paths of `TikTokAPIScraper.scrape` (scraper.py:1067-1169):
missing cookies, a failed session setup and a missing video id raise
`ScraperException`; the pagination loop either raises
`CaptchaDetectedException` or returns the collected list.  The method
has no `try/finally` and never invokes `close`, so the session state is
returned untouched on every path. -/
def apiScrape (hasCookies setupOk videoIdOk : Bool)
    (api : Nat → Option ApiResponse) (st : ApiSessionState) :
    ApiSessionState × Except PyExc (List ParsedComment) :=
  if ¬ hasCookies then
    (st, .error (PyExc.other "Cookies required for API scraping. Please provide TikTok cookies."))
  else if ¬ setupOk then
    (st, .error (PyExc.other "Failed to setup session with cookies"))
  else if ¬ videoIdOk then
    (st, .error (PyExc.other "Could not extract video ID from URL"))
  else
    match apiScrapeLoop api 500 [] 0 0 with
    | .captchaRaised _ => (st, .error PyExc.captchaDetected)
    | .ok cs _ => (st, .ok cs)

/-- **C10 counterexample.** The Direct API client does NOT release its
HTTP session on every exit path of `scrape`: on a concrete successful
run (cookies present, setup and video-id resolution succeeding, the API
immediately reporting no comments) the method returns with the session
still open — `scrape` contains no `finally` and never calls `close`
(scraper.py:1067-1173). -/
theorem claim_C10_counterexample :
    (apiScrape true true true (fun _ => some {}) { sessionOpen := true }).1.sessionOpen
      = true ∧
    (apiScrape true true true (fun _ => some {}) { sessionOpen := true }).2 =
      Except.ok [] := by
  have h := apiScrapeLoop_stop_empty (fun _ => some {}) 500 [] 0 0 {}
    (by decide) rfl rfl rfl
  constructor
  · simp [apiScrape, h]
  · simp [apiScrape, h]

/-- **C10 (amended).** The browser scrapers release the browser process
on every exit path of `scrape` — success, each typed failure, and
wrapped unexpected exceptions — via the `finally: self.close()` blocks
(scraper.py:1662-1663, 2438-2439), which leave `driver = None`.  The
Direct API client's `scrape`, by contrast, releases nothing: its session
state is unchanged on every exit path (its `close` method exists but is
never called from `scrape`). -/
theorem claim_C10_amended :
    (∀ (body : Except PyExc (List RawComment)) (st : BrowserState),
      (browserScrapeExit body st).1.driver = none) ∧
    (∀ (hasCookies setupOk videoIdOk : Bool) (api : Nat → Option ApiResponse)
      (st : ApiSessionState),
      (apiScrape hasCookies setupOk videoIdOk api st).1 = st) := by
  constructor
  · intro body st
    rfl
  · intro hasCookies setupOk videoIdOk api st
    rw [apiScrape]
    by_cases h1 : hasCookies
    · by_cases h2 : setupOk
      · by_cases h3 : videoIdOk
        · simp only [h1, h2, h3, not_true, if_false, if_neg]
          cases apiScrapeLoop api 500 [] 0 0 <;> rfl
        · simp [h1, h2, h3]
      · simp [h1, h2]
    · simp [h1]

end Scraper
